import Mathlib

/-!
Verification development for the baker HTML-summarization pipeline.

The repository batch-processes a directory of HTML documents: it extracts
visible text from each file, sends the text to a remote summarization model,
truncates the returned summary to a configured maximum length, and persists
one JSON record per input file.  This file gives a shallow embedding of the
pipeline (`src/main.py`, together with the superseded helper modules under
`src/analyzers`, `src/extractors`, `src/config` and `src/prompts.py`) and
proves or refutes the specification claims about it.

Modelling conventions:
* Python strings are Lean `String`s; Python slicing `s[:n]` with a
  non-negative bound is `pyslice`, `str.strip()` is `pystrip`.
* The remote model's reply is a `ModelResponse`: either a plain string or a
  chat message object carrying a `content` string (the shape returned by the
  chat client used in `main.py`).
* The filesystem contents of the output directory are an association list
  from file name to file contents (bytes as a `String`).
* Per-file behaviour of the external world (extraction success, remote call
  success, write success) is a `FileSpec` field, so the orchestrator loop is
  a pure function of the initial state and those outcomes.
-/

namespace Baker

/-- Left and right curly-brace characters, used when embedding Python string
literals that contain braces. -/
def lbrace : Char := Char.ofNat 123

/-- Right curly-brace character. -/
def rbrace : Char := Char.ofNat 125

/-- Python `s[:n]` for a non-negative bound `n`: the first `min n (len s)`
characters of `s`. -/
def pyslice (s : String) (n : Nat) : String := ⟨s.data.take n⟩

/-- Python `str.strip()` on a character list: drop leading and trailing
whitespace. -/
def pystripList (l : List Char) : List Char :=
  ((l.dropWhile Char.isWhitespace).reverse.dropWhile Char.isWhitespace).reverse

/-- Python `str.strip()`. -/
def pystrip (s : String) : String := ⟨pystripList s.data⟩

/-- The value returned by `self.chain.invoke({"document": text})`: the chat
client of `main.py` returns a message object with a `content` attribute, while
the legacy completion-style interface returns a plain string. -/
inductive ModelResponse where
  | str (s : String)
  | message (content : String)
deriving DecidableEq, Repr

/-- Python `getattr(summary, "content", str(summary))` from
`HTMLAnalyzer.analyze_text` in `main.py`: a message yields its `content`
attribute, and `str` applied to a plain string is the string itself. -/
def getattr_content : ModelResponse → String
  | .str s => s
  | .message c => c

/-- The dictionary returned by the analyzer: summary text plus the token
usage reported by the client callback. -/
structure AnalysisResult where
  summary : String
  used_tokens : Nat
deriving DecidableEq, Repr

/-- Embedding of `HTMLAnalyzer.analyze_text` from `main.py` (lines 127-154):
extract the response text, hard-truncate it to `maxLen` characters when it is
longer (logging a warning, modelled by the returned `Bool`), and pair it with
the callback's token count. -/
def analyze_text (maxLen : Nat) (resp : ModelResponse) (toks : Nat) :
    AnalysisResult × Bool :=
  if (getattr_content resp).length > maxLen then
    (⟨pyslice (getattr_content resp) maxLen, toks⟩, true)
  else
    (⟨getattr_content resp, toks⟩, false)

/-- Embedding of the superseded `HTMLAnalyzer.analyze` from
`analyzers/html_analyzer.py` (lines 16-26): it slices the raw response object
`summary[: self.max_length]` without extracting `content` first.  Slicing a
plain string succeeds; slicing a message object raises `TypeError` (message
objects are not subscriptable), which the method logs and re-raises, so the
embedding returns `none` there. -/
def analyze (maxLen : Nat) (resp : ModelResponse) (toks : Nat) :
    Option AnalysisResult :=
  match resp with
  | .str s => some ⟨pyslice s maxLen, toks⟩
  | .message _ => none

/-- The raw prompt template string built by `get_summary_prompt` in
`prompts.py` (lines 13-26).  The `PromptTemplate` object's `.template`
attribute is exactly this string; `max_length` is only a partial variable
substituted at format time. -/
def summaryTemplate : String :=
  "You are an advanced summarization model. Your task is to provide a concise " ++
  "summary of the given document. The summary must not exceed than {max_length} characters," ++
  "ensuring clarity and relevance. Avoid including unnecessary " ++
  "details or repeating information. If necessary, focus only on the " ++
  "most critical points to adhere to the character limit.\n\n" ++
  "Document:\n{document}\n\n" ++
  "Summary (max {max_length} characters):"

/-- Rendering the prompt template (Python `str.format` semantics applied to
`summaryTemplate` with `max_length` and `document` substituted): the string
actually sent to the model at call time. -/
def renderedSummaryPrompt (maxLen : Nat) (doc : String) : String :=
  "You are an advanced summarization model. Your task is to provide a concise " ++
  "summary of the given document. The summary must not exceed than " ++
  toString maxLen ++ " characters," ++
  "ensuring clarity and relevance. Avoid including unnecessary " ++
  "details or repeating information. If necessary, focus only on the " ++
  "most critical points to adhere to the character limit.\n\n" ++
  "Document:\n" ++ doc ++ "\n\n" ++
  "Summary (max " ++ toString maxLen ++ " characters):"

/-- One pass of `BeautifulSoup(...).get_text(separator="\n")` text
collection, modelled as a scanner over the raw HTML characters: characters
between `<` and `>` are markup and are dropped; the maximal nonempty runs of
characters outside markup are the document's text nodes, returned in order.
`inTag` says whether the scanner is currently inside a tag and `acc` holds
the current (reversed) text run. -/
def getTextSegs : List Char → Bool → List Char → List String
  | [], _, acc => if acc.isEmpty then [] else [⟨acc.reverse⟩]
  | c :: rest, true, acc =>
    if c = '>' then getTextSegs rest false acc else getTextSegs rest true acc
  | c :: rest, false, acc =>
    if c = '<' then
      if acc.isEmpty then getTextSegs rest true []
      else (⟨acc.reverse⟩ : String) :: getTextSegs rest true []
    else getTextSegs rest false (c :: acc)

/-- Embedding of `HTMLExtractor.extract_text` (`main.py` lines 87-108 and
`extractors/html_extractor.py` lines 11-19): the text nodes of the parsed
document joined with the `"\n"` separator, then `strip()`ped. -/
def extract_text (html : String) : String :=
  pystrip (String.intercalate "\n" (getTextSegs html.data false []))

/-- The HTML document named by the specification's extraction example. -/
def sampleHtml : String := "<html><body><p>Hello</p><p>World</p></body></html>"

/-- A string whose first and last characters (when present) are not
whitespace — the shape `str.strip()` guarantees. -/
def StrippedEnds (s : String) : Prop :=
  (∀ c, s.data.head? = some c → c.isWhitespace = false) ∧
  (∀ c, s.data.getLast? = some c → c.isWhitespace = false)

/-- The result record assembled in `main` (`main.py` lines 239-246). -/
structure OutputRecord where
  input_html : String
  prompt : String
  summary : String
  used_tokens : Nat
deriving DecidableEq, Repr

/-- JSON string escaping as performed by `json.dump(..., ensure_ascii=False)`:
quotes, backslashes and control characters are escaped, everything else is
written as-is. -/
def jsonEscape (s : String) : String :=
  ⟨s.data.foldr (fun c acc =>
    if c = '"' then '\\' :: '"' :: acc
    else if c = '\\' then '\\' :: '\\' :: acc
    else if c = '\n' then '\\' :: 'n' :: acc
    else if c = '\t' then '\\' :: 't' :: acc
    else if c = '\r' then '\\' :: 'r' :: acc
    else c :: acc) []⟩

/-- The bytes written by `HTMLAnalyzer.save_to_json` (`main.py` lines 156-171):
`json.dump(data, f, ensure_ascii=False, indent=4)` of the result record, keys
in insertion order. -/
def serializeRecord (r : OutputRecord) : String :=
  "\x7b\n    \"input_html\": \"" ++ jsonEscape r.input_html ++
  "\",\n    \"prompt\": \"" ++ jsonEscape r.prompt ++
  "\",\n    \"summary\": \"" ++ jsonEscape r.summary ++
  "\",\n    \"used_tokens\": " ++ toString r.used_tokens ++ "\n\x7d"

/-- One input HTML file together with the behaviour the external world gives
it during this run: `stem` is the file name without the `.html` suffix,
`path` is `str(html_path.resolve())`, `extractResult` is the text extraction
outcome (`none` models an I/O or parse error that raises), `remoteResult` is
the remote summarization outcome (`none` models a raised remote-call error),
and `writeOk` says whether writing the output file succeeds. -/
structure FileSpec where
  stem : String
  path : String
  extractResult : Option String
  remoteResult : Option (ModelResponse × Nat)
  writeOk : Bool
deriving DecidableEq, Repr

/-- Terminal state of one file's iteration in the orchestrator loop. -/
inductive Outcome where
  | skipped
  | written
  | failed
deriving DecidableEq, Repr

/-- What one iteration of the loop did: which file, its terminal state,
whether extraction was attempted, whether the remote capability was invoked,
and the record written on success.  A `.failed` outcome corresponds to the
`except` branch that logs the error together with `html_path.name` and
continues. -/
structure Event where
  stem : String
  outcome : Outcome
  extractInvoked : Bool
  remoteInvoked : Bool
  record : Option OutputRecord
deriving DecidableEq, Repr

/-- The output directory's contents: an association list from file name to
file contents. -/
abbrev Fs := List (String × String)

/-- Output file name for a given input stem:
`f"{html_path.stem}_summary.json"`. -/
def outputName (stem : String) : String := stem ++ "_summary.json"

/-- Look a file name up in the output directory. -/
def lookupFs : Fs → String → Option String
  | [], _ => none
  | (k, v) :: rest, name => if k = name then some v else lookupFs rest name

/-- Build the result record (`main.py` lines 239-244): the resolved input
path, the raw template string `.strip()`ped, and the analysis result. -/
def mkRecord (path tmplStripped : String) (ar : AnalysisResult) : OutputRecord :=
  ⟨path, tmplStripped, ar.summary, ar.used_tokens⟩

/-- One iteration of the `for html_path in html_files` loop in `main`
(`main.py` lines 223-252): skip when the destination exists, otherwise
extract, call the remote model, assemble the record and write it; any raised
error is caught, logged with the file name, and the loop continues. -/
def processFile (maxLen : Nat) (tmpl : String) (fs : Fs) (f : FileSpec) :
    Fs × Event :=
  match lookupFs fs (outputName f.stem) with
  | some _ => (fs, ⟨f.stem, .skipped, false, false, none⟩)
  | none =>
    match f.extractResult with
    | none => (fs, ⟨f.stem, .failed, true, false, none⟩)
    | some _ =>
      match f.remoteResult with
      | none => (fs, ⟨f.stem, .failed, true, true, none⟩)
      | some (resp, toks) =>
        let r := mkRecord f.path (pystrip tmpl) (analyze_text maxLen resp toks).1
        if f.writeOk then
          ((outputName f.stem, serializeRecord r) :: fs,
           ⟨f.stem, .written, true, true, some r⟩)
        else (fs, ⟨f.stem, .failed, true, true, none⟩)

/-- The whole orchestrator loop over the enumerated input files. -/
def runPipeline (maxLen : Nat) (tmpl : String) (fs : Fs) :
    List FileSpec → Fs × List Event
  | [] => (fs, [])
  | f :: rest =>
    let p := processFile maxLen tmpl fs f
    let q := runPipeline maxLen tmpl p.1 rest
    (q.1, p.2 :: q.2)

/-- Result of one run of `main`: final output-directory contents, the
per-file events, and whether the "No HTML files found" notice was logged. -/
structure RunResult where
  fs : Fs
  events : List Event
  noFilesWarning : Bool
deriving DecidableEq, Repr

/-- The body of `main` after setup (`main.py` lines 217-254): warn and return
when the input enumeration is empty, otherwise run the loop. -/
def mainRun (maxLen : Nat) (tmpl : String) (fs : Fs) (files : List FileSpec) :
    RunResult :=
  if files.isEmpty then ⟨fs, [], true⟩
  else
    let p := runPipeline maxLen tmpl fs files
    ⟨p.1, p.2, false⟩

/-- The world `main` starts in: whether the configured input and output
directories exist, the `*.html` files the input directory holds when it
exists, and the output directory's current contents. -/
structure World where
  inputDirExists : Bool
  outputDirExists : Bool
  inputFiles : List FileSpec
  outputs : Fs
deriving DecidableEq, Repr

/-- `main` (`main.py` lines 196-254): both directories are created with
`mkdir(parents=True, exist_ok=True)` (lines 201-202) before
`input_dir.glob("*.html")` runs, so a previously missing input directory is
enumerated as empty; the template passed to the analyzer is
`get_summary_prompt(max_length)`, whose `.template` is `summaryTemplate`. -/
def mainWorld (maxLen : Nat) (w : World) : RunResult :=
  mainRun maxLen summaryTemplate w.outputs
    (if w.inputDirExists then w.inputFiles else [])

/-- A YAML configuration value as `yaml.safe_load` produces it: strings,
mappings, sequences, and other scalars (numbers, booleans, null) which the
environment-variable resolution leaves untouched. -/
inductive ConfigVal where
  | str (s : String)
  | dict (entries : List (String × ConfigVal))
  | list (items : List ConfigVal)
  | other

/-- The process environment: variable name to value, `none` when unset. -/
abbrev Env := String → Option String

/-- Python `config.startswith("$" + "\x7b") and config.endswith("\x7d")` on the
string's characters. -/
def isPlaceholder (l : List Char) : Bool :=
  (l.take 2 == ['$', lbrace]) && (l.getLast? == some rbrace)

/-- Python `config[2:-1]`: the variable name inside a placeholder. -/
def placeholderVar (l : List Char) : String := ⟨(l.drop 2).dropLast⟩

/-- The placeholder string for an environment variable name. -/
def placeholderOf (name : String) : String := "$\x7b" ++ name ++ "\x7d"

mutual
/-- Embedding of `Config.resolve_env_variables` from `main.py` (lines 47-62):
placeholders `$\x7bVAR\x7d` are replaced by the variable's value, and an unset
variable (or one whose value is falsy, i.e. the empty string) raises
`EnvironmentError`, modelled as `none`; mappings and sequences are resolved
recursively and any raised error propagates. -/
def resolveEnv (env : Env) : ConfigVal → Option ConfigVal
  | .str s =>
    if isPlaceholder s.data then
      match env (placeholderVar s.data) with
      | none => none
      | some v => if v = "" then none else some (.str v)
    else some (.str s)
  | .other => some .other
  | .dict es =>
    match resolveEntries env es with
    | none => none
    | some es2 => some (.dict es2)
  | .list is =>
    match resolveItems env is with
    | none => none
    | some is2 => some (.list is2)

/-- Resolve each value of a mapping, propagating errors. -/
def resolveEntries (env : Env) :
    List (String × ConfigVal) → Option (List (String × ConfigVal))
  | [] => some []
  | (k, v) :: rest =>
    match resolveEnv env v, resolveEntries env rest with
    | some v2, some r2 => some ((k, v2) :: r2)
    | _, _ => none

/-- Resolve each item of a sequence, propagating errors. -/
def resolveItems (env : Env) : List ConfigVal → Option (List ConfigVal)
  | [] => some []
  | v :: rest =>
    match resolveEnv env v, resolveItems env rest with
    | some v2, some r2 => some (v2 :: r2)
    | _, _ => none
end

/-- A configuration tree contains a given string as one of its values. -/
inductive ContainsStr : ConfigVal → String → Prop where
  | base (s : String) : ContainsStr (.str s) s
  | dict {es : List (String × ConfigVal)} {k : String} {v : ConfigVal}
      {s : String} : (k, v) ∈ es → ContainsStr v s → ContainsStr (.dict es) s
  | list {is : List ConfigVal} {v : ConfigVal} {s : String} :
      v ∈ is → ContainsStr v s → ContainsStr (.list is) s

/-- Result of running the program entry point (`main.py` lines 257-275): a
configuration-loading failure makes `load_configuration` raise, the exception
is printed and the process exits with code 1 before `main` — and hence before
any file processing — runs; otherwise `main` runs. -/
inductive ProgramResult where
  | configError
  | ran (r : RunResult)
deriving DecidableEq, Repr

/-- The `__main__` block: load (and env-resolve) the configuration first,
aborting on failure, then run `main`. -/
def program (env : Env) (cfg : ConfigVal) (maxLen : Nat) (w : World) :
    ProgramResult :=
  match resolveEnv env cfg with
  | none => .configError
  | some _ => .ran (mainWorld maxLen w)

/-! ### Helper lemmas -/

/-- Two strings with the same character data are equal. -/
theorem string_data_inj {a b : String} (h : a.data = b.data) : a = b := by
  cases a; cases b; cases h; rfl

/-- Length of a Python slice `s[:n]`. -/
theorem pyslice_length (s : String) (n : Nat) :
    (pyslice s n).length = min n s.length :=
  List.length_take n s.data

/-- A Python slice `s[:n]` with `len s ≤ n` is `s` itself. -/
theorem pyslice_of_le (s : String) (n : Nat) (h : s.length ≤ n) :
    pyslice s n = s :=
  congrArg String.mk (List.take_of_length_le h)

/-- The head of `dropWhile p l`, when present, fails `p`. -/
theorem head?_dropWhile_false (p : Char → Bool) :
    ∀ (l : List Char) (c : Char), (l.dropWhile p).head? = some c → p c = false := by
  intro l
  induction l with
  | nil => intro c h; simp [List.dropWhile] at h
  | cons a t ih =>
    intro c h
    by_cases hp : p a
    · rw [List.dropWhile_cons_of_pos hp] at h
      exact ih c h
    · rw [List.dropWhile_cons_of_neg hp] at h
      simp at h
      rw [← h]
      exact Bool.of_not_eq_true hp

/-- `dropWhile` keeps the last element when its result is nonempty. -/
theorem getLast?_dropWhile (p : Char → Bool) :
    ∀ l : List Char, l.dropWhile p ≠ [] →
      (l.dropWhile p).getLast? = l.getLast? := by
  intro l
  induction l with
  | nil => intro h; simp [List.dropWhile] at h
  | cons a t ih =>
    intro h
    by_cases hp : p a
    · rw [List.dropWhile_cons_of_pos hp] at h ⊢
      have ht : t ≠ [] := by
        intro he
        rw [he] at h
        simp [List.dropWhile] at h
      rw [ih h]
      cases t with
      | nil => exact absurd rfl ht
      | cons b t2 => rw [List.getLast?_cons_cons]
    · rw [List.dropWhile_cons_of_neg hp]

/-- `pystrip` removes all leading and trailing whitespace. -/
theorem pystrip_strippedEnds (s : String) : StrippedEnds (pystrip s) := by
  constructor
  · intro c h
    have h2 : ((s.data.dropWhile Char.isWhitespace).reverse.dropWhile
        Char.isWhitespace).reverse.head? = some c := h
    rw [List.head?_reverse] at h2
    have hne : (s.data.dropWhile Char.isWhitespace).reverse.dropWhile
        Char.isWhitespace ≠ [] := by
      intro he
      rw [he] at h2
      simp at h2
    rw [getLast?_dropWhile _ _ hne, List.getLast?_reverse] at h2
    exact head?_dropWhile_false _ _ _ h2
  · intro c h
    have h2 : ((s.data.dropWhile Char.isWhitespace).reverse.dropWhile
        Char.isWhitespace).reverse.getLast? = some c := h
    rw [List.getLast?_reverse] at h2
    exact head?_dropWhile_false _ _ _ h2

/-- `outputName` is injective: distinct stems give distinct output files. -/
theorem outputName_inj {a b : String} (h : outputName a = outputName b) :
    a = b := by
  have h2 : a.data ++ "_summary.json".data = b.data ++ "_summary.json".data :=
    congrArg String.data h
  exact string_data_inj (List.append_cancel_right h2)

/-! ### Claim theorems -/

/-- Claim C2: for every model response text `s` and configured maximum length
`M`, if `len s > M` the persisted `summary` field is exactly the first `M`
characters of `s` (so has length exactly `M`) and a warning is logged; if
`len s ≤ M` the persisted `summary` field equals `s` unmodified (and no
warning is logged). -/
theorem c2_truncation (M toks : Nat) (resp : ModelResponse) :
    ((getattr_content resp).length > M →
      (analyze_text M resp toks).1.summary = pyslice (getattr_content resp) M ∧
      (analyze_text M resp toks).1.summary.length = M ∧
      (analyze_text M resp toks).2 = true) ∧
    ((getattr_content resp).length ≤ M →
      (analyze_text M resp toks).1.summary = getattr_content resp ∧
      (analyze_text M resp toks).2 = false) := by
  constructor
  · intro h
    rw [analyze_text, if_pos h]
    refine ⟨rfl, ?_, rfl⟩
    rw [pyslice_length]
    exact Nat.min_eq_left (Nat.le_of_lt h)
  · intro h
    rw [analyze_text, if_neg (Nat.not_lt.2 h)]
    exact ⟨rfl, rfl⟩

/-- Claim C2 witness: instantiated at `M = 5` with the response text
`"Hello world"` (length 11) and at `M = 100` with the same text. -/
theorem c2_truncation_witness :
    ((getattr_content (.str "Hello world")).length > 5 ∧
      (analyze_text 5 (.str "Hello world") 7).1.summary =
        pyslice (getattr_content (.str "Hello world")) 5 ∧
      (analyze_text 5 (.str "Hello world") 7).1.summary.length = 5 ∧
      (analyze_text 5 (.str "Hello world") 7).2 = true) ∧
    ((getattr_content (.str "Hello world")).length ≤ 100 ∧
      (analyze_text 100 (.str "Hello world") 7).1.summary =
        getattr_content (.str "Hello world") ∧
      (analyze_text 100 (.str "Hello world") 7).2 = false) :=
  ⟨⟨by decide, (c2_truncation 5 7 (.str "Hello world")).1 (by decide)⟩,
   ⟨by decide, (c2_truncation 100 7 (.str "Hello world")).2 (by decide)⟩⟩

/-- Claim C7: every analysis result satisfies the invariant
`len summary ≤ maxLen`, and its token count is a non-negative integer; this
holds for the active analyzer (`analyze_text` in `main.py`) and, whenever it
returns a result at all, for the superseded analyzer
(`analyze` in `analyzers/html_analyzer.py`). -/
theorem c7_summary_invariant (M toks : Nat) (resp : ModelResponse) :
    (analyze_text M resp toks).1.summary.length ≤ M ∧
    (0 : Int) ≤ ((analyze_text M resp toks).1.used_tokens : Int) ∧
    ∀ r, analyze M resp toks = some r → r.summary.length ≤ M := by
  refine ⟨?_, Int.ofNat_nonneg _, ?_⟩
  · rw [analyze_text]
    by_cases h : (getattr_content resp).length > M
    · rw [if_pos h]
      simp only [pyslice_length]
      exact Nat.min_le_left _ _
    · rw [if_neg h]
      exact Nat.not_lt.1 h
  · intro r hr
    cases resp with
    | str s =>
      rw [analyze] at hr
      cases hr
      simp only [pyslice_length]
      exact Nat.min_le_left _ _
    | message c => exact absurd hr (by rw [analyze]; exact Option.noConfusion)

/-- Claim C7 witness: instantiated at `M = 5`, the response `"abcdefgh"`, and
the superseded analyzer's concrete result. -/
theorem c7_summary_invariant_witness :
    analyze 5 (.str "abcdefgh") 2 = some ⟨"abcde", 2⟩ ∧
    (("abcde" : String).length ≤ 5) :=
  ⟨by decide, (c7_summary_invariant 5 2 (.str "abcdefgh")).2.2 ⟨"abcde", 2⟩ (by decide)⟩

/-- Claim C9 counterexample: on a chat-message response the superseded
analyzer raises (`summary[: self.max_length]` is applied to the message
object, which is not subscriptable) and produces no result dictionary, while
the active analyzer extracts `.content` and returns one — so the two do not
return equal result dictionaries for every model response. -/
theorem c9_counterexample :
    analyze 10 (.message "Hi") 3 ≠ some (analyze_text 10 (.message "Hi") 3).1 := by
  decide

/-- Claim C9 (amended): for every model response that is a plain string, the
active analyzer's `analyze_text` (`main.py`) and the superseded analyzer's
`analyze` (`analyzers/html_analyzer.py`) return equal result dictionaries —
the same `summary` string and the same `used_tokens` value. -/
theorem c9_analyzers_agree_on_strings (M toks : Nat) (s : String) :
    analyze M (.str s) toks = some (analyze_text M (.str s) toks).1 := by
  rw [analyze, analyze_text]
  by_cases h : (getattr_content (.str s)).length > M
  · rw [if_pos h]
    rfl
  · rw [if_neg h]
    have hs : (getattr_content (.str s)) = s := rfl
    rw [hs] at h ⊢
    rw [pyslice_of_le s M (Nat.not_lt.1 h)]

/-- Claim C5: for the specification's example document, text extraction
returns `"Hello"` and `"World"` as separate lines in that order with all tags
stripped; and in general the extracted text has the text-node separations
collapsed to single newlines (the `"\n"` separator joining the text segments)
with leading and trailing whitespace trimmed. -/
theorem c5_extraction :
    extract_text sampleHtml = "Hello\nWorld" ∧
    (extract_text sampleHtml).data.splitOn '\n' = ["Hello".data, "World".data] ∧
    ∀ html : String, StrippedEnds (extract_text html) := by
  refine ⟨by decide, by decide, ?_⟩
  intro html
  exact pystrip_strippedEnds _

/-- Claim C5 witness: the trimming clause instantiated at the example
document and its first and last characters. -/
theorem c5_extraction_witness :
    ('H'.isWhitespace = false) ∧ ('d'.isWhitespace = false) ∧
    extract_text sampleHtml = "Hello\nWorld" :=
  ⟨(c5_extraction.2.2 sampleHtml).1 'H' (by decide),
   (c5_extraction.2.2 sampleHtml).2 'd' (by decide),
   c5_extraction.1⟩

/-- Claim C1: when the destination file `<stem>_summary.json` already exists
in the output directory at the start of a file's iteration, that iteration
skips before extraction — the directory contents are left unchanged (in
particular the existing file's bytes are untouched), extraction is never
attempted, and the remote summarization capability is never invoked. -/
theorem c1_skip_existing (maxLen : Nat) (tmpl : String) (fs : Fs)
    (f : FileSpec) (c : String)
    (h : lookupFs fs (outputName f.stem) = some c) :
    processFile maxLen tmpl fs f = (fs, ⟨f.stem, .skipped, false, false, none⟩) ∧
    lookupFs (processFile maxLen tmpl fs f).1 (outputName f.stem) = some c := by
  have hp : processFile maxLen tmpl fs f =
      (fs, ⟨f.stem, .skipped, false, false, none⟩) := by
    rw [processFile, h]
  exact ⟨hp, by rw [hp]; exact h⟩

/-- Claim C1 witness: a concrete directory already holding
`a_summary.json` with contents `"OLD"`, and an input file `a.html` whose
extraction and remote call would succeed if attempted. -/
theorem c1_skip_existing_witness :
    lookupFs [("a_summary.json", "OLD")] (outputName "a") = some "OLD" ∧
    processFile 500 summaryTemplate [("a_summary.json", "OLD")]
        ⟨"a", "/in/a.html", some "text", some (.str "sum", 3), true⟩ =
      ([("a_summary.json", "OLD")], ⟨"a", .skipped, false, false, none⟩) ∧
    lookupFs (processFile 500 summaryTemplate [("a_summary.json", "OLD")]
        ⟨"a", "/in/a.html", some "text", some (.str "sum", 3), true⟩).1
        (outputName "a") = some "OLD" :=
  ⟨by decide,
   (c1_skip_existing 500 summaryTemplate [("a_summary.json", "OLD")]
      ⟨"a", "/in/a.html", some "text", some (.str "sum", 3), true⟩ "OLD"
      (by decide)).1,
   (c1_skip_existing 500 summaryTemplate [("a_summary.json", "OLD")]
      ⟨"a", "/in/a.html", some "text", some (.str "sum", 3), true⟩ "OLD"
      (by decide)).2⟩

/-- Claim C3: if processing of file `A` fails at any stage (extraction,
remote call, or write), the output directory is left unchanged — no output
file for `A` is produced — the failure is recorded against `A`'s file name
(the logged error), and the batch continues: the remaining files are
processed from the same state, and a later file `B` that succeeds still gets
its output file written while `A` still has none. -/
theorem c3_failure_isolated (maxLen : Nat) (tmpl : String) (fs : Fs)
    (A : FileSpec) (rest : List FileSpec)
    (hA : lookupFs fs (outputName A.stem) = none)
    (hfail : A.extractResult = none ∨ A.remoteResult = none ∨ A.writeOk = false) :
    (processFile maxLen tmpl fs A).1 = fs ∧
    (processFile maxLen tmpl fs A).2.outcome = .failed ∧
    (processFile maxLen tmpl fs A).2.stem = A.stem ∧
    runPipeline maxLen tmpl fs (A :: rest) =
      ((runPipeline maxLen tmpl fs rest).1,
        (processFile maxLen tmpl fs A).2 :: (runPipeline maxLen tmpl fs rest).2) ∧
    ∀ B t resp toks, A.stem ≠ B.stem →
      lookupFs fs (outputName B.stem) = none →
      B.extractResult = some t → B.remoteResult = some (resp, toks) →
      B.writeOk = true →
      lookupFs (runPipeline maxLen tmpl fs [A, B]).1 (outputName B.stem) =
        some (serializeRecord
          (mkRecord B.path (pystrip tmpl) (analyze_text maxLen resp toks).1)) ∧
      lookupFs (runPipeline maxLen tmpl fs [A, B]).1 (outputName A.stem) = none := by
  have key : (processFile maxLen tmpl fs A).1 = fs ∧
      (processFile maxLen tmpl fs A).2.outcome = .failed ∧
      (processFile maxLen tmpl fs A).2.stem = A.stem := by
    cases hext : A.extractResult with
    | none => simp [processFile, hA, hext]
    | some t0 =>
      cases hrem : A.remoteResult with
      | none => simp [processFile, hA, hext, hrem]
      | some pr =>
        obtain ⟨resp0, toks0⟩ := pr
        have hw : A.writeOk = false := by
          rcases hfail with h1 | h2 | h3
          · rw [hext] at h1; cases h1
          · rw [hrem] at h2; cases h2
          · exact h3
        simp [processFile, hA, hext, hrem, hw]
  refine ⟨key.1, key.2.1, key.2.2, ?_, ?_⟩
  · simp only [runPipeline]
    rw [key.1]
  · intro B t resp toks hne hB hext hrem hw
    have hPB : processFile maxLen tmpl fs B =
        ((outputName B.stem, serializeRecord
            (mkRecord B.path (pystrip tmpl) (analyze_text maxLen resp toks).1)) :: fs,
          ⟨B.stem, .written, true, true,
            some (mkRecord B.path (pystrip tmpl) (analyze_text maxLen resp toks).1)⟩) := by
      simp [processFile, hB, hext, hrem, hw]
    have hrun : runPipeline maxLen tmpl fs [A, B] =
        ((processFile maxLen tmpl fs B).1,
          [(processFile maxLen tmpl fs A).2, (processFile maxLen tmpl fs B).2]) := by
      simp only [runPipeline]
      rw [key.1]
    have hBA : outputName B.stem ≠ outputName A.stem :=
      fun hh => hne (outputName_inj hh).symm
    rw [hrun, hPB]
    constructor
    · simp [lookupFs]
    · simp only [lookupFs]
      rw [if_neg hBA]
      exact hA

/-- Claim C3 witness: file `a.html` whose remote call raises, followed by
file `b.html` that succeeds, run over an empty output directory. -/
theorem c3_failure_isolated_witness :
    lookupFs ([] : Fs) (outputName "a") = none ∧
    (FileSpec.remoteResult ⟨"a", "/in/a.html", some "TA", none, true⟩ = none ∨
      False) ∧
    (processFile 500 summaryTemplate []
        ⟨"a", "/in/a.html", some "TA", none, true⟩).1 = [] ∧
    lookupFs (runPipeline 500 summaryTemplate []
        [⟨"a", "/in/a.html", some "TA", none, true⟩,
         ⟨"b", "/in/b.html", some "TB", some (.str "SB", 4), true⟩]).1
        (outputName "b") =
      some (serializeRecord (mkRecord "/in/b.html" (pystrip summaryTemplate)
        (analyze_text 500 (.str "SB") 4).1)) ∧
    lookupFs (runPipeline 500 summaryTemplate []
        [⟨"a", "/in/a.html", some "TA", none, true⟩,
         ⟨"b", "/in/b.html", some "TB", some (.str "SB", 4), true⟩]).1
        (outputName "a") = none :=
  ⟨rfl, Or.inl rfl,
   (c3_failure_isolated 500 summaryTemplate []
      ⟨"a", "/in/a.html", some "TA", none, true⟩
      [⟨"b", "/in/b.html", some "TB", some (.str "SB", 4), true⟩]
      rfl (Or.inr (Or.inl rfl))).1,
   ((c3_failure_isolated 500 summaryTemplate []
      ⟨"a", "/in/a.html", some "TA", none, true⟩
      [⟨"b", "/in/b.html", some "TB", some (.str "SB", 4), true⟩]
      rfl (Or.inr (Or.inl rfl))).2.2.2.2
      ⟨"b", "/in/b.html", some "TB", some (.str "SB", 4), true⟩
      "TB" (.str "SB") 4 (by decide) rfl rfl rfl rfl).1,
   ((c3_failure_isolated 500 summaryTemplate []
      ⟨"a", "/in/a.html", some "TA", none, true⟩
      [⟨"b", "/in/b.html", some "TB", some (.str "SB", 4), true⟩]
      rfl (Or.inr (Or.inl rfl))).2.2.2.2
      ⟨"b", "/in/b.html", some "TB", some (.str "SB", 4), true⟩
      "TB" (.str "SB") 4 (by decide) rfl rfl rfl rfl).2⟩

set_option maxRecDepth 10000 in
/-- Claim C4 counterexample: in a successful concrete run the persisted
`prompt` field is the raw template string (stripped), which is not the
rendered instruction template — the rendering substitutes the `max_length`
and `document` placeholders, the stored string does not. -/
theorem c4_counterexample :
    ((processFile 500 summaryTemplate []
        ⟨"doc", "/in/doc.html", some "Hello\nWorld",
          some (.str "A summary.", 42), true⟩).2.record.map
        OutputRecord.prompt) = some (pystrip summaryTemplate) ∧
    pystrip summaryTemplate ≠ renderedSummaryPrompt 500 "Hello\nWorld" := by
  refine ⟨rfl, fun h => absurd (congrArg String.length h) ?_⟩
  decide

/-- Claim C4 (amended): for every successfully processed input file, exactly
one JSON output file named `<input-stem>_summary.json` is written to the
output directory, and its record contains the keys `input_html` equal to the
resolved source path string, `prompt` equal to the raw instruction template
text whitespace-stripped (its `max_length` and `document` placeholders left
unsubstituted), `summary`, and the token-usage field `used_tokens` equal to
the callback's token count. -/
theorem c4_record_shape (maxLen : Nat) (fs : Fs) (f : FileSpec) (t : String)
    (resp : ModelResponse) (toks : Nat)
    (hlook : lookupFs fs (outputName f.stem) = none)
    (hext : f.extractResult = some t)
    (hrem : f.remoteResult = some (resp, toks)) (hw : f.writeOk = true) :
    processFile maxLen summaryTemplate fs f =
      ((f.stem ++ "_summary.json",
        serializeRecord (mkRecord f.path (pystrip summaryTemplate)
          (analyze_text maxLen resp toks).1)) :: fs,
       ⟨f.stem, .written, true, true,
        some (mkRecord f.path (pystrip summaryTemplate)
          (analyze_text maxLen resp toks).1)⟩) ∧
    (mkRecord f.path (pystrip summaryTemplate)
      (analyze_text maxLen resp toks).1).input_html = f.path ∧
    (mkRecord f.path (pystrip summaryTemplate)
      (analyze_text maxLen resp toks).1).prompt = pystrip summaryTemplate ∧
    (mkRecord f.path (pystrip summaryTemplate)
      (analyze_text maxLen resp toks).1).used_tokens = toks := by
  refine ⟨?_, rfl, rfl, ?_⟩
  · have hlook2 : lookupFs fs (f.stem ++ "_summary.json") = none := hlook
    simp [processFile, hlook2, hext, hrem, hw, outputName]
  · show (analyze_text maxLen resp toks).1.used_tokens = toks
    rw [analyze_text]
    split <;> rfl

/-- Claim C4 witness: a concrete successful file over an empty output
directory with `maxLen = 500` and response `"Sum"`, token count 9. -/
theorem c4_record_shape_witness :
    lookupFs ([] : Fs) (outputName "doc") = none ∧
    processFile 500 summaryTemplate []
        ⟨"doc", "/in/doc.html", some "TXT", some (.str "Sum", 9), true⟩ =
      ([("doc" ++ "_summary.json",
          serializeRecord (mkRecord "/in/doc.html" (pystrip summaryTemplate)
            (analyze_text 500 (.str "Sum") 9).1))],
       ⟨"doc", .written, true, true,
        some (mkRecord "/in/doc.html" (pystrip summaryTemplate)
          (analyze_text 500 (.str "Sum") 9).1)⟩) ∧
    (mkRecord "/in/doc.html" (pystrip summaryTemplate)
      (analyze_text 500 (.str "Sum") 9).1).used_tokens = 9 :=
  ⟨rfl,
   (c4_record_shape 500 []
      ⟨"doc", "/in/doc.html", some "TXT", some (.str "Sum", 9), true⟩
      "TXT" (.str "Sum") 9 rfl rfl rfl rfl).1,
   (c4_record_shape 500 []
      ⟨"doc", "/in/doc.html", some "TXT", some (.str "Sum", 9), true⟩
      "TXT" (.str "Sum") 9 rfl rfl rfl rfl).2.2.2⟩

/-- Claim C6: a run whose input directory contains no `*.html` files
completes without error, leaves the output directory unchanged (zero output
files are produced), records no per-file events, and logs the notice that no
input files were found. -/
theorem c6_empty_input (maxLen : Nat) (w : World) (h : w.inputFiles = []) :
    mainWorld maxLen w = ⟨w.outputs, [], true⟩ := by
  rw [mainWorld, h]
  cases w.inputDirExists <;> simp [mainRun]

/-- Claim C6 witness: an existing but HTML-free input directory and an output
directory already holding one unrelated file. -/
theorem c6_empty_input_witness :
    World.inputFiles ⟨true, true, [], [("x", "y")]⟩ = [] ∧
    mainWorld 500 ⟨true, true, [], [("x", "y")]⟩ = ⟨[("x", "y")], [], true⟩ :=
  ⟨rfl, c6_empty_input 500 ⟨true, true, [], [("x", "y")]⟩ rfl⟩

/-- Claim C10 counterexample: a world whose output directory is missing but
whose input directory holds one processable file.  `main` creates the output
directory and processes that file — the run does not find zero input files
and does not complete like a run over an empty directory. -/
theorem c10_counterexample :
    World.outputDirExists
      ⟨true, false, [⟨"doc", "/in/doc.html", some "B", some (.str "S", 5), true⟩],
        []⟩ = false ∧
    (mainWorld 500
      ⟨true, false, [⟨"doc", "/in/doc.html", some "B", some (.str "S", 5), true⟩],
        []⟩).noFilesWarning = false ∧
    (mainWorld 500
      ⟨true, false, [⟨"doc", "/in/doc.html", some "B", some (.str "S", 5), true⟩],
        []⟩).events ≠ [] ∧
    (mainWorld 500
      ⟨true, false, [⟨"doc", "/in/doc.html", some "B", some (.str "S", 5), true⟩],
        []⟩).fs ≠ [] := by
  refine ⟨rfl, rfl, ?_, ?_⟩ <;> intro h <;> cases h

/-- Claim C10 (amended): if the configured input directory does not exist
when the run starts, `main` never raises for that reason — it creates both
directories, finds zero input files, and completes exactly like a run over
an empty input directory; a missing output directory likewise never causes a
raise (it is created, and the run's behaviour does not depend on whether it
existed), but it does not by itself make the run find zero input files. -/
theorem c10_missing_dirs (maxLen : Nat) (w : World) :
    (w.inputDirExists = false →
      mainWorld maxLen w = ⟨w.outputs, [], true⟩ ∧
      mainWorld maxLen w = mainRun maxLen summaryTemplate w.outputs []) ∧
    ∀ b, mainWorld maxLen ⟨w.inputDirExists, b, w.inputFiles, w.outputs⟩ =
      mainWorld maxLen w := by
  constructor
  · intro h
    rw [mainWorld, h]
    exact ⟨by simp [mainRun], rfl⟩
  · intro b
    rfl

/-- Claim C10 witness: a world with a missing input directory (whose stale
file list is irrelevant, since the freshly created directory is empty) and a
nonempty output directory. -/
theorem c10_missing_dirs_witness :
    World.inputDirExists
      ⟨false, true, [⟨"doc", "/in/doc.html", some "B", some (.str "S", 5), true⟩],
        [("x", "y")]⟩ = false ∧
    mainWorld 500
      ⟨false, true, [⟨"doc", "/in/doc.html", some "B", some (.str "S", 5), true⟩],
        [("x", "y")]⟩ = ⟨[("x", "y")], [], true⟩ :=
  ⟨rfl,
   ((c10_missing_dirs 500
      ⟨false, true, [⟨"doc", "/in/doc.html", some "B", some (.str "S", 5), true⟩],
        [("x", "y")]⟩).1 rfl).1⟩

/-- A raised resolution error in any value of a mapping makes the whole
mapping's resolution raise. -/
theorem resolveEntries_none_of_mem (env : Env) {k : String} {v : ConfigVal} :
    ∀ es : List (String × ConfigVal), (k, v) ∈ es →
      resolveEnv env v = none → resolveEntries env es = none := by
  intro es
  induction es with
  | nil => intro hm; cases hm
  | cons hd tl ih =>
    intro hm hv
    cases hm with
    | head => simp [resolveEntries, hv]
    | tail _ h2 =>
      obtain ⟨k2, v2⟩ := hd
      have hrest := ih h2 hv
      cases hr : resolveEnv env v2 <;> simp [resolveEntries, hr, hrest]

/-- A raised resolution error in any item of a sequence makes the whole
sequence's resolution raise. -/
theorem resolveItems_none_of_mem (env : Env) {v : ConfigVal} :
    ∀ is : List ConfigVal, v ∈ is →
      resolveEnv env v = none → resolveItems env is = none := by
  intro is
  induction is with
  | nil => intro hm; cases hm
  | cons hd tl ih =>
    intro hm hv
    cases hm with
    | head => simp [resolveItems, hv]
    | tail _ h2 =>
      have hrest := ih h2 hv
      cases hr : resolveEnv env hd <;> simp [resolveItems, hr, hrest]

/-- A placeholder for an unset environment variable anywhere in the
configuration makes `resolve_env_variables` raise. -/
theorem resolveEnv_none_of_contains (env : Env) (name : String)
    (henv : env name = none) :
    ∀ cfg : ConfigVal, ContainsStr cfg (placeholderOf name) →
      resolveEnv env cfg = none := by
  suffices H : ∀ (cfg : ConfigVal) (s : String), ContainsStr cfg s →
      s = placeholderOf name → resolveEnv env cfg = none by
    intro cfg hc
    exact H cfg _ hc rfl
  intro cfg s hc
  induction hc with
  | base s0 =>
    intro hs
    subst hs
    have hdata : (placeholderOf name).data =
        ('$' :: lbrace :: name.data) ++ [rbrace] := rfl
    have hph : isPlaceholder (placeholderOf name).data = true := by
      rw [hdata, isPlaceholder]
      have h1 : (('$' :: lbrace :: name.data) ++ [rbrace]).take 2 =
          ['$', lbrace] := rfl
      have h2 : (('$' :: lbrace :: name.data) ++ [rbrace]).getLast? =
          some rbrace := List.getLast?_concat _
      rw [h1, h2]
      simp
    have hvar : placeholderVar (placeholderOf name).data = name := by
      rw [placeholderVar, hdata]
      have h3 : ((('$' :: lbrace :: name.data) ++ [rbrace]).drop 2) =
          name.data ++ [rbrace] := rfl
      rw [h3, List.dropLast_concat]
    simp only [resolveEnv]
    rw [if_pos hph, hvar, henv]
  | dict hmem hsub ih =>
    intro hs
    have hv := ih hs
    have hes := resolveEntries_none_of_mem env _ hmem hv
    simp only [resolveEnv]
    rw [hes]
  | list hmem hsub ih =>
    intro hs
    have hv := ih hs
    have his := resolveItems_none_of_mem env _ hmem hv
    simp only [resolveEnv]
    rw [his]

/-- Claim C8: if a configuration value is the environment-variable
placeholder for `VAR` and `VAR` is unset, configuration loading raises and
the program aborts at startup with a configuration error, before any file is
processed. -/
theorem c8_unset_env_aborts (env : Env) (name : String) (cfg : ConfigVal)
    (maxLen : Nat) (w : World)
    (henv : env name = none)
    (hc : ContainsStr cfg (placeholderOf name)) :
    program env cfg maxLen w = .configError := by
  have h := resolveEnv_none_of_contains env name henv cfg hc
  rw [program, h]

/-- Claim C8 witness: an empty environment and the repository's configuration
shape, whose `xai.api_key` value is the `XAI_API_KEY` placeholder. -/
theorem c8_unset_env_aborts_witness :
    (fun _ => (none : Option String)) "XAI_API_KEY" = none ∧
    program (fun _ => none)
      (ConfigVal.dict [("xai", ConfigVal.dict
        [("api_key", ConfigVal.str (placeholderOf "XAI_API_KEY"))])])
      500 ⟨true, true, [], []⟩ = .configError :=
  ⟨rfl,
   c8_unset_env_aborts (fun _ => none) "XAI_API_KEY"
     (ConfigVal.dict [("xai", ConfigVal.dict
       [("api_key", ConfigVal.str (placeholderOf "XAI_API_KEY"))])])
     500 ⟨true, true, [], []⟩ rfl
     (ContainsStr.dict (List.Mem.head _)
       (ContainsStr.dict (List.Mem.head _) (ContainsStr.base _)))⟩

end Baker
